import Mathlib

/-!
Verification development for the safe-gh permission engine.

The definitions below are shallow embeddings of the TypeScript sources:
- `src/permissions.ts` (current decision engine: condition checkers,
  the global allowedOwners gate, `checkPermission`, `operationNeedsContext`),
- `src/types.ts` (data model and the AI comment-marker helpers),
- `src/conditions.ts` (earlier engine generation: `checkAllowedOwners` on a
  bare repo string, `checkIssueCondition` with parent-issue sub-conditions,
  `evaluateRules` carrying enforce directives),
- `src/commands/issue-create.ts` and `src/commands/utils.ts` (the issue
  create invocation flow: permission check, dry-run, primary gh call,
  enforcement call, and error payload routing with exit codes).

JavaScript string falsiness (`!s` is true for both `undefined` and `""`)
is modelled explicitly by `strFalsy` on `Option String`.  Machine strings
are Lean `String`s; optional JSON fields are `Option`s.
-/

namespace SafeGh

/-- JS falsiness of an optional string: `!s` holds for `undefined`/`null` and `""`. -/
def strFalsy : Option String → Bool
  | none => true
  | some s => s == ""

/-- Embeds `repo.split("/")[0]`: the substring of `s` before the first `/`
(the whole string when there is no `/`, empty when `s` starts with `/`). -/
def firstSegment (s : String) : String :=
  String.mk (s.toList.takeWhile (fun c => c != '/'))

/-- A single-quote character as a string, used to build reason messages. -/
def sq : String := "\x27"

-- ============================================================
-- Data model (src/types.ts, current generation)
-- ============================================================

/-- Embeds `LabelCondition` from src/types.ts: `{include?, exclude?}`.
The `include` field is renamed `incl` because `include` is a Lean keyword. -/
structure LabelCondition where
  incl : Option (List String) := none
  exclude : Option (List String) := none
deriving DecidableEq

/-- The common condition shape shared by issue and PR rules
(`CommonConditionSchema` in src/types.ts); `IssueCondition` equals it. -/
structure CommonCondition where
  createdBy : Option String := none
  assignee : Option String := none
  labels : Option LabelCondition := none
  repos : Option (List String) := none
  owners : Option (List String) := none
deriving DecidableEq

/-- Embeds `PrCondition` from src/types.ts: the common condition extended with
draft, base/head branch patterns and review decision. -/
structure PrCondition extends CommonCondition where
  draft : Option Bool := none
  baseBranch : Option (List String) := none
  headBranch : Option (List String) := none
  reviewDecision : Option String := none
deriving DecidableEq

/-- Embeds `SearchCondition` from src/types.ts. -/
structure SearchCondition where
  repos : Option (List String) := none
  owners : Option (List String) := none
deriving DecidableEq

/-- Embeds `ProjectCondition` from src/types.ts. -/
structure ProjectCondition where
  owner : Option (List String) := none
  projectNumbers : Option (List Int) := none
deriving DecidableEq

/-- A rule (`IssueRuleSchema`/`PrRuleSchema`/... in src/types.ts):
name, operation names, optional condition of the resource's shape. -/
structure Rule (α : Type) where
  name : String
  operations : List String
  condition : Option α := none
deriving DecidableEq

/-- Embeds `ResourceType` from src/types.ts. -/
inductive ResourceType
  | issue
  | pr
  | search
  | project
deriving DecidableEq

/-- Embeds `Config` consumed by src/permissions.ts: four ordered rule lists,
optional selfUserId, defaultPermission (`"deny"`/`"read"`), optional
global allowedOwners. -/
structure Config where
  issueRules : List (Rule CommonCondition) := []
  prRules : List (Rule PrCondition) := []
  searchRules : List (Rule SearchCondition) := []
  projectRules : List (Rule ProjectCondition) := []
  selfUserId : Option String := none
  defaultPermission : String := "deny"
  allowedOwners : Option (List String) := none

/-- Embeds `OperationContext` from src/types.ts: the point-in-time snapshot. -/
structure OperationContext where
  repo : Option String := none
  issueNumber : Option Int := none
  issueAuthor : Option String := none
  prNumber : Option Int := none
  prAuthor : Option String := none
  labels : Option (List String) := none
  assignees : Option (List String) := none
  draft : Option Bool := none
  baseBranch : Option String := none
  headBranch : Option String := none
  reviewDecision : Option String := none
  projectNumber : Option Int := none
  projectOwner : Option String := none
deriving DecidableEq

/-- Embeds `PermissionCheckResult` from src/types.ts (current generation:
no enforce field). -/
structure PermissionCheckResult where
  allowed : Bool
  ruleName : Option String := none
  reason : String
deriving DecidableEq

-- ============================================================
-- Condition checkers (src/permissions.ts)
-- ============================================================

/-- The `createdBy` clause of `checkCommonCondition`:
`author = context.issueAuthor ?? context.prAuthor`; fail when selfUserId or
author is falsy or the author differs from selfUserId. -/
def createdByOk (condition : CommonCondition) (context : OperationContext)
    (selfUserId : Option String) : Bool :=
  if condition.createdBy == some "self" then
    let author := context.issueAuthor.orElse (fun _ => context.prAuthor)
    if strFalsy selfUserId || strFalsy author then false
    else author == selfUserId
  else true

/-- The `assignee` clause of `checkCommonCondition`. -/
def assigneeOk (condition : CommonCondition) (context : OperationContext)
    (selfUserId : Option String) : Bool :=
  if condition.assignee == some "self" then
    match selfUserId with
    | none => false
    | some su =>
      if su == "" then false
      else (context.assignees.getD []).contains su
  else true

/-- The `labels` clause of `checkCommonCondition`: include needs a
non-empty intersection, exclude needs an empty one. -/
def labelsOk (condition : CommonCondition) (context : OperationContext) : Bool :=
  match condition.labels with
  | none => true
  | some lc =>
    let contextLabels := context.labels.getD []
    (match lc.incl with
     | some l => if l.length > 0 then l.any (fun x => contextLabels.contains x) else true
     | none => true)
    &&
    (match lc.exclude with
     | some l => if l.length > 0 then !(l.any (fun x => contextLabels.contains x)) else true
     | none => true)

/-- The `repos` clause of `checkCommonCondition`. -/
def reposOk (condition : CommonCondition) (context : OperationContext) : Bool :=
  match condition.repos with
  | none => true
  | some rs =>
    if rs.length > 0 then
      if strFalsy context.repo then false
      else rs.contains (context.repo.getD "")
    else true

/-- The `owners` clause of `checkCommonCondition`: owner is
`context.repo.split("/")[0]`; an empty owner fails the clause. -/
def ownersOk (condition : CommonCondition) (context : OperationContext) : Bool :=
  match condition.owners with
  | none => true
  | some os =>
    if os.length > 0 then
      if strFalsy context.repo then false
      else
        let owner := firstSegment (context.repo.getD "")
        if owner == "" then false else os.contains owner
    else true

/-- Embeds `checkCommonCondition` from src/permissions.ts: the AND of the five
common clauses (the source is a sequence of early `return false`s). -/
def checkCommonCondition (condition : CommonCondition) (context : OperationContext)
    (selfUserId : Option String) : Bool :=
  createdByOk condition context selfUserId
  && assigneeOk condition context selfUserId
  && labelsOk condition context
  && reposOk condition context
  && ownersOk condition context

-- ============================================================
-- Branch pattern matching (src/permissions.ts, matchBranchPattern)
-- ============================================================

/-- JS regular-expression line terminators, which the `.` metacharacter
(without the s flag) does not match: LF, CR, U+2028, U+2029. -/
def isLineTerm (c : Char) : Bool :=
  c == '\n' || c == '\r' || c == '\u2028' || c == '\u2029'

/-- One token of the regular expression the source builds with
`new RegExp("^" + pattern.replace(/\*/g, ".*") + "$")`:
a literal character, the `.` metacharacter (any character except a line
terminator), or a `.*` run (each `*` of the pattern was replaced by
`.*`, matching any run of non-line-terminator characters). -/
inductive RTok
  | lit (c : Char)
  | anyChar
  | anyStar
deriving DecidableEq

/-- Compile a branch pattern to regex tokens as the source's `RegExp`
construction interprets it: `*` becomes `.*`, `.` is the JS
any-but-line-terminator metacharacter, every other character is
literal. Faithful for patterns that avoid the remaining JS regex
metacharacters (+ ? ( ) [ ] \x7b \x7d \ ^ $ |); every pattern appearing
in the theorems below lies in that domain. -/
def compilePattern (pattern : List Char) : List RTok :=
  pattern.map (fun c => if c == '*' then RTok.anyStar else if c == '.' then RTok.anyChar else RTok.lit c)

/-- The suffixes of a character list that a `.*` run can leave behind:
drop any number of leading characters as long as none of the dropped
characters is a line terminator. -/
def starSuffixes : List Char → List (List Char)
  | [] => [[]]
  | c :: rest => (c :: rest) :: (if isLineTerm c then [] else starSuffixes rest)

/-- Anchored regex matching over the token list: `anyChar` consumes one
non-line-terminator character, `anyStar` may consume any run of
non-line-terminator characters, so a match exists iff some split works
(the boolean semantics of `regex.test`). Structural recursion on the
token list. -/
def rmatch : List RTok → List Char → Bool
  | [], s => s.isEmpty
  | RTok.lit c :: ts, s =>
    match s with
    | [] => false
    | x :: xs => c == x && rmatch ts xs
  | RTok.anyChar :: ts, s =>
    match s with
    | [] => false
    | x :: xs => !isLineTerm x && rmatch ts xs
  | RTok.anyStar :: ts, s => (starSuffixes s).any (fun suf => rmatch ts suf)

/-- Embeds `matchBranchPattern` from src/permissions.ts: exact equality when the
pattern has no `*` (`!pattern.includes("*")`), otherwise the anchored
regex built from the pattern. -/
def matchBranchPattern (branch : String) (pattern : String) : Bool :=
  if !(pattern.toList.contains '*') then branch == pattern
  else rmatch (compilePattern pattern.toList) branch.toList

/-- The `draft` clause of `checkPrCondition`. -/
def draftOk (condition : PrCondition) (context : OperationContext) : Bool :=
  match condition.draft with
  | none => true
  | some d =>
    match context.draft with
    | none => false
    | some cd => cd == d

/-- The `baseBranch` clause of `checkPrCondition`: with a non-empty pattern
list, the context branch must be present (and non-empty, by JS falsiness)
and some pattern must match it. -/
def baseBranchOk (condition : PrCondition) (context : OperationContext) : Bool :=
  match condition.baseBranch with
  | none => true
  | some pats =>
    if pats.length > 0 then
      if strFalsy context.baseBranch then false
      else pats.any (fun pattern => matchBranchPattern (context.baseBranch.getD "") pattern)
    else true

/-- The `headBranch` clause of `checkPrCondition`. -/
def headBranchOk (condition : PrCondition) (context : OperationContext) : Bool :=
  match condition.headBranch with
  | none => true
  | some pats =>
    if pats.length > 0 then
      if strFalsy context.headBranch then false
      else pats.any (fun pattern => matchBranchPattern (context.headBranch.getD "") pattern)
    else true

/-- The `reviewDecision` clause of `checkPrCondition`:
`context.reviewDecision !== condition.reviewDecision` fails. -/
def reviewDecisionOk (condition : PrCondition) (context : OperationContext) : Bool :=
  match condition.reviewDecision with
  | none => true
  | some rd => context.reviewDecision == some rd

/-- Embeds `checkPrCondition` from src/permissions.ts: the common checks plus the
PR-specific clauses, all ANDed. -/
def checkPrCondition (condition : PrCondition) (context : OperationContext)
    (selfUserId : Option String) : Bool :=
  checkCommonCondition condition.toCommonCondition context selfUserId
  && draftOk condition context
  && baseBranchOk condition context
  && headBranchOk condition context
  && reviewDecisionOk condition context

/-- Embeds `checkSearchCondition` from src/permissions.ts. -/
def checkSearchCondition (condition : SearchCondition) (context : OperationContext) : Bool :=
  (match condition.repos with
   | none => true
   | some rs =>
     if rs.length > 0 then
       if strFalsy context.repo then false
       else rs.contains (context.repo.getD "")
     else true)
  &&
  (match condition.owners with
   | none => true
   | some os =>
     if os.length > 0 then
       if strFalsy context.repo then false
       else
         let owner := firstSegment (context.repo.getD "")
         if owner == "" then false else os.contains owner
     else true)

/-- Embeds `checkProjectCondition` from src/permissions.ts. -/
def checkProjectCondition (condition : ProjectCondition) (context : OperationContext) : Bool :=
  (match condition.owner with
   | none => true
   | some os =>
     if os.length > 0 then
       match context.projectOwner with
       | none => false
       | some po => os.contains po
     else true)
  &&
  (match condition.projectNumbers with
   | none => true
   | some ns =>
     if ns.length > 0 then
       match context.projectNumber with
       | none => false
       | some n => ns.contains n
     else true)

-- ============================================================
-- Global allowedOwners gate (src/permissions.ts, checkAllowedOwners)
-- ============================================================

/-- The deny result naming the excluded owner and the allow-list. -/
def blockedByOwnersResult (owner : String) (ao : List String) : PermissionCheckResult :=
  { allowed := false
    reason := "Blocked by global allowedOwners: owner " ++ sq ++ owner ++ sq
      ++ " is not in [" ++ String.intercalate ", " ao ++ "]" }

/-- The deny result for issue/pr contexts lacking a repo while
allowedOwners is configured. -/
def repoRequiredResult : PermissionCheckResult :=
  { allowed := false
    reason := "Repository must be specified with -R owner/repo when allowedOwners is configured" }

/-- Embeds `checkAllowedOwners` from src/permissions.ts: `none` means no
objection; a result is a terminal deny. The derived owner is checked
only when non-empty (`if (!owner) return null`). -/
def checkAllowedOwners (config : Config) (resource : ResourceType)
    (context : OperationContext) : Option PermissionCheckResult :=
  match config.allowedOwners with
  | none => none
  | some ao =>
    if ao.length == 0 then none
    else
      let ownerCheck : String → Option PermissionCheckResult := fun owner =>
        if owner == "" then none
        else if !(ao.contains owner) then some (blockedByOwnersResult owner ao)
        else none
      match resource with
      | ResourceType.project =>
        if strFalsy context.projectOwner then none
        else ownerCheck (context.projectOwner.getD "")
      | ResourceType.search =>
        if strFalsy context.repo then none
        else ownerCheck (firstSegment (context.repo.getD ""))
      | _ =>
        if strFalsy context.repo then some repoRequiredResult
        else ownerCheck (firstSegment (context.repo.getD ""))

-- ============================================================
-- Main permission check (src/permissions.ts, checkPermission)
-- ============================================================

/-- The allow result for a matched rule, with the reason citing the rule name. -/
def allowResult (name : String) : PermissionCheckResult :=
  { allowed := true
    ruleName := some name
    reason := "Allowed by rule " ++ sq ++ name ++ sq }

/-- The rule scan loop of `checkPermission`: skip a rule when the
operation is not in its operations set, skip when its condition fails,
return the allow result of the first rule passing both. -/
def ruleLoop {α : Type} (check : α → Bool) (rules : List (Rule α))
    (operation : String) : Option PermissionCheckResult :=
  match rules with
  | [] => none
  | rule :: rest =>
    if rule.operations.contains operation then
      match rule.condition with
      | some c => if check c then some (allowResult rule.name) else ruleLoop check rest operation
      | none => some (allowResult rule.name)
    else ruleLoop check rest operation

/-- The fixed read-operation name list of `checkPermission`'s fallback. -/
def readOperations : List String :=
  ["list", "view", "list:comments", "diff", "checks", "field:list", "item:list"]

/-- The default-permission fallback of `checkPermission`: allow iff
defaultPermission is `"read"` and the operation name is in
`readOperations`; otherwise the generic deny. -/
def defaultFallback (config : Config) (operation : String) : PermissionCheckResult :=
  if config.defaultPermission == "read" && readOperations.contains operation then
    { allowed := true, reason := "Allowed by default read permission" }
  else
    { allowed := false, reason := "No matching rule and default permission is deny" }

/-- Embeds `checkPermission` from src/permissions.ts: owner gate first (a deny is
returned unchanged), then the first-match rule scan of the resource's
list, then the default-permission fallback. -/
def checkPermission (config : Config) (resource : ResourceType)
    (operation : String) (context : OperationContext) : PermissionCheckResult :=
  match checkAllowedOwners config resource context with
  | some ownerBlock => ownerBlock
  | none =>
    let matched : Option PermissionCheckResult :=
      match resource with
      | ResourceType.issue =>
        ruleLoop (fun c => checkCommonCondition c context config.selfUserId) config.issueRules operation
      | ResourceType.pr =>
        ruleLoop (fun c => checkPrCondition c context config.selfUserId) config.prRules operation
      | ResourceType.search =>
        ruleLoop (fun c => checkSearchCondition c context) config.searchRules operation
      | ResourceType.project =>
        ruleLoop (fun c => checkProjectCondition c context) config.projectRules operation
    match matched with
    | some result => result
    | none => defaultFallback config operation

-- ============================================================
-- Context resolver table (src/permissions.ts, operationNeedsContext)
-- ============================================================

/-- Embeds `operationNeedsContext` from src/permissions.ts: the static table of
operations requiring a pre-decision fetch; false for search and project. -/
def operationNeedsContext (resource : ResourceType) (operation : String) : Bool :=
  match resource with
  | ResourceType.issue =>
    ["update", "close", "reopen", "delete", "comment", "comment:edit", "comment:delete"].contains operation
  | ResourceType.pr =>
    ["update", "close", "reopen", "merge", "review", "update-branch", "comment", "comment:edit", "comment:delete"].contains operation
  | _ => false

/-- Embeds `IssueOperationValues` from src/types.ts. -/
def IssueOperationValues : List String :=
  ["list", "view", "list:comments", "create", "update", "close", "reopen",
   "delete", "comment", "comment:edit", "comment:delete"]

/-- Embeds `PrOperationValues` from src/types.ts. -/
def PrOperationValues : List String :=
  ["list", "view", "diff", "checks", "list:comments", "create", "update",
   "close", "reopen", "merge", "review", "update-branch", "comment",
   "comment:edit", "comment:delete"]

/-- Embeds `SearchOperationValues` from src/types.ts. -/
def SearchOperationValues : List String :=
  ["code", "issues", "prs", "repos", "commits"]

/-- Embeds `ProjectOperationValues` from src/types.ts. -/
def ProjectOperationValues : List String :=
  ["list", "view", "field:list", "item:list", "create", "edit", "close",
   "delete", "item:add", "item:create", "item:edit", "item:delete",
   "item:archive", "field:create", "field:delete"]

/-- The valid operation name list of each resource. -/
def opValues : ResourceType → List String
  | ResourceType.issue => IssueOperationValues
  | ResourceType.pr => PrOperationValues
  | ResourceType.search => SearchOperationValues
  | ResourceType.project => ProjectOperationValues

-- ============================================================
-- Earlier engine generation (src/conditions.ts):
-- issue rules carrying enforce directives, parent-issue conditions
-- ============================================================

/-- Embeds `Enforce` directive attached to a rule (earlier generation's types):
label and assignee mutations applied after the primary action. -/
structure Enforce where
  addLabels : Option (List String) := none
  removeLabels : Option (List String) := none
  addAssignees : Option (List String) := none
  removeAssignees : Option (List String) := none
deriving DecidableEq

/-- The nested `parentIssue` sub-condition of the earlier generation's
`IssueCondition`. The source's `titlePrefix` field is named `titlePre`
here for lexical reasons. -/
structure ParentIssueCondition where
  number : Option Int := none
  assignee : Option String := none
  labels : Option LabelCondition := none
  titlePre : Option String := none
deriving DecidableEq

/-- The earlier generation's `IssueCondition`: the common fields plus a
title-prefix check (`titlePre` here) and a nested parent-issue condition. -/
structure IssueConditionV1 where
  createdBy : Option String := none
  assignee : Option String := none
  labels : Option LabelCondition := none
  repos : Option (List String) := none
  owners : Option (List String) := none
  titlePre : Option String := none
  parentIssue : Option ParentIssueCondition := none
deriving DecidableEq

/-- The earlier generation's `IssueRule`: rules live in per-operation
lists (e.g. `config.issueCreate`), so they carry no operations set;
they may carry an enforce directive. -/
structure IssueRuleV1 where
  name : String
  condition : Option IssueConditionV1 := none
  enforce : Option Enforce := none
deriving DecidableEq

/-- The earlier generation's `IssueContext`: non-optional resource fields
plus separately supplied parent-issue fields (absent parent:
`parentIssueNumber = none`, empty lists, no title). -/
structure IssueContext where
  repo : String
  issueNumber : Int := 0
  issueAuthor : String := ""
  issueTitle : String := ""
  labels : List String := []
  assignees : List String := []
  parentIssueNumber : Option Int := none
  parentIssueAssignees : List String := []
  parentIssueLabels : List String := []
  parentIssueTitle : Option String := none
deriving DecidableEq

/-- The earlier generation's `PermissionCheckResult`, which carries the
matched rule's enforce directive. -/
structure PermissionCheckResultV1 where
  allowed : Bool
  ruleName : Option String := none
  reason : String
  enforce : Option Enforce := none
deriving DecidableEq

/-- Embeds `checkAllowedOwners` from src/conditions.ts (earlier generation):
takes the bare repo string; an underivable owner is a deny here. -/
def checkAllowedOwnersV1 (allowedOwners : Option (List String)) (repo : String) :
    Option PermissionCheckResultV1 :=
  match allowedOwners with
  | none => none
  | some ao =>
    if ao.length == 0 then none
    else
      let owner := firstSegment repo
      if owner == "" then
        some { allowed := false, reason := "Could not determine owner from repo" }
      else if !(ao.contains owner) then
        some { allowed := false
               reason := "Blocked by global allowedOwners: owner " ++ sq ++ owner ++ sq
                 ++ " is not in [" ++ String.intercalate ", " ao ++ "]" }
      else none

/-- The `createdBy` clause of `checkIssueCondition`:
`!selfUserId || context.issueAuthor !== selfUserId` fails. -/
def createdByOkV1 (condition : IssueConditionV1) (context : IssueContext)
    (selfUserId : Option String) : Bool :=
  if condition.createdBy == some "self" then
    match selfUserId with
    | none => false
    | some su => if su == "" then false else context.issueAuthor == su
  else true

/-- The `assignee` clause of `checkIssueCondition`. -/
def assigneeOkV1 (condition : IssueConditionV1) (context : IssueContext)
    (selfUserId : Option String) : Bool :=
  if condition.assignee == some "self" then
    match selfUserId with
    | none => false
    | some su => if su == "" then false else context.assignees.contains su
  else true

/-- The `labels` clause of `checkIssueCondition` (include/exclude against
the given label list; shared with the parent-issue labels check). -/
def labelClauseOk (lc : Option LabelCondition) (present : List String) : Bool :=
  match lc with
  | none => true
  | some l =>
    (match l.incl with
     | some xs => if xs.length > 0 then xs.any (fun x => present.contains x) else true
     | none => true)
    &&
    (match l.exclude with
     | some xs => if xs.length > 0 then !(xs.any (fun x => present.contains x)) else true
     | none => true)

/-- The `repos` clause of `checkIssueCondition` (repo is non-optional here). -/
def reposOkV1 (condition : IssueConditionV1) (context : IssueContext) : Bool :=
  match condition.repos with
  | none => true
  | some rs => if rs.length > 0 then rs.contains context.repo else true

/-- The `owners` clause of `checkIssueCondition`. -/
def ownersOkV1 (condition : IssueConditionV1) (context : IssueContext) : Bool :=
  match condition.owners with
  | none => true
  | some os =>
    if os.length > 0 then
      let owner := firstSegment context.repo
      if owner == "" then false else os.contains owner
    else true

/-- The `titlePrefix` clause of `checkIssueCondition`:
`context.issueTitle.startsWith(prefix value)` must hold. -/
def titleOkV1 (condition : IssueConditionV1) (context : IssueContext) : Bool :=
  match IssueConditionV1.titlePre condition with
  | none => true
  | some t => (context.issueTitle.toList.take t.toList.length) == t.toList

/-- The nested `parentIssue` clause of `checkIssueCondition`: each
specified sub-field is checked against the parent-issue context fields
(number equality, self-assignee membership, label include/exclude, title
starting with the given text; a missing parent title fails that check). -/
def parentIssueOk (p : ParentIssueCondition) (context : IssueContext)
    (selfUserId : Option String) : Bool :=
  (match p.number with
   | none => true
   | some n => context.parentIssueNumber == some n)
  &&
  (if p.assignee == some "self" then
    match selfUserId with
    | none => false
    | some su => if su == "" then false else context.parentIssueAssignees.contains su
  else true)
  &&
  labelClauseOk p.labels context.parentIssueLabels
  &&
  (match ParentIssueCondition.titlePre p with
   | none => true
   | some t =>
     match context.parentIssueTitle with
     | none => false
     | some title =>
       if title == "" then false
       else (title.toList.take t.toList.length) == t.toList)

/-- Embeds `checkIssueCondition` from src/conditions.ts: the AND of all clauses,
including the nested parent-issue clause when present. -/
def checkIssueCondition (condition : IssueConditionV1) (context : IssueContext)
    (selfUserId : Option String) : Bool :=
  createdByOkV1 condition context selfUserId
  && assigneeOkV1 condition context selfUserId
  && labelClauseOk condition.labels context.labels
  && reposOkV1 condition context
  && ownersOkV1 condition context
  && titleOkV1 condition context
  && (match condition.parentIssue with
      | none => true
      | some p => parentIssueOk p context selfUserId)

/-- The allow result of `evaluateRules`, carrying the rule's enforce. -/
def allowResultV1 (name : String) (enforce : Option Enforce) : PermissionCheckResultV1 :=
  { allowed := true
    ruleName := some name
    reason := "Allowed by rule " ++ sq ++ name ++ sq
    enforce := enforce }

/-- Embeds `evaluateRules` from src/conditions.ts: first rule whose condition
(if any) is satisfied wins; its name and enforce directive are copied
into the result; otherwise the default deny. -/
def evaluateRules (rules : List IssueRuleV1) (context : IssueContext)
    (selfUserId : Option String) : PermissionCheckResultV1 :=
  match rules with
  | [] => { allowed := false, reason := "No matching rule and default permission is deny" }
  | rule :: rest =>
    match rule.condition with
    | some c =>
      if checkIssueCondition c context selfUserId then allowResultV1 rule.name rule.enforce
      else evaluateRules rest context selfUserId
    | none => allowResultV1 rule.name rule.enforce

-- ============================================================
-- Issue create invocation flow (src/commands/issue-create.ts,
-- src/commands/utils.ts)
-- ============================================================

/-- The earlier generation's config fields used by the issue create
command: global allowedOwners, the per-operation rule list
`issueCreate`, and selfUserId. -/
structure ConfigV1 where
  allowedOwners : Option (List String) := none
  issueCreate : List IssueRuleV1 := []
  selfUserId : Option String := none

/-- An `ErrorResponse` payload (src/types.ts of the earlier generation):
message, error code string, and the url detail carried by enforce
errors (other detail fields are opaque to the decision logic). -/
structure ErrorResponse where
  error : String
  code : String
  detailsUrl : Option String := none
deriving DecidableEq

/-- Outcome of one external `gh` call: captured stdout, or a CLI error
carrying stderr. -/
inductive ExecResult
  | ok (stdout : String)
  | fail (stderr : String)
deriving DecidableEq

/-- What one invocation prints and its exit code, after `handleError`
routing (src/commands/utils.ts): a dry-run report exits 0, an error
payload exits 1, a success payload exits 0. -/
inductive InvocationResult
  | dryRunReport (allowed : Bool) (ruleName : Option String) (reason : String)
      (enforce : Option Enforce) (exitCode : Nat)
  | errorOut (resp : ErrorResponse) (exitCode : Nat)
  | successOut (message : String) (url : String) (exitCode : Nat)
deriving DecidableEq

/-- Embeds `resolveSelf` inside `buildEnforceArgs`: the literal "self" resolves
to selfUserId, raising a CONFIG_ERROR when it is not configured. -/
def resolveSelf (selfUserId : Option String) (value : String) : Except ErrorResponse String :=
  if value == "self" then
    match selfUserId with
    | none => Except.error
        { error := "enforce uses \"self\" but selfUserId is not configured. Set selfUserId in config."
          code := "CONFIG_ERROR" }
    | some su =>
      if su == "" then Except.error
        { error := "enforce uses \"self\" but selfUserId is not configured. Set selfUserId in config."
          code := "CONFIG_ERROR" }
      else Except.ok su
  else Except.ok value

/-- Embeds `buildEnforceArgs` from src/commands/utils.ts: flag/value pairs for
the `gh issue edit` enforcement call; assignee values go through
`resolveSelf`, which can fail with CONFIG_ERROR. -/
def buildEnforceArgs (enforce : Enforce) (selfUserId : Option String) :
    Except ErrorResponse (List String) := do
  let addL := (enforce.addLabels.getD []).foldr (fun l acc => "--add-label" :: l :: acc) []
  let remL := (enforce.removeLabels.getD []).foldr (fun l acc => "--remove-label" :: l :: acc) []
  let addA ← (enforce.addAssignees.getD []).mapM (resolveSelf selfUserId)
  let remA ← (enforce.removeAssignees.getD []).mapM (resolveSelf selfUserId)
  return addL ++ remL ++ addA.foldr (fun a acc => "--add-assignee" :: a :: acc) []
    ++ remA.foldr (fun a acc => "--remove-assignee" :: a :: acc) []

/-- JS `String.prototype.trim` modelled on characters: strip ASCII
whitespace from both ends. -/
def trimStr (s : String) : String :=
  let ws : Char -> Bool := fun c => c == ' ' || c == '\n' || c == '\t' || c == '\r'
  String.mk (((s.toList.dropWhile ws).reverse.dropWhile ws).reverse)

/-- The `/\/(\d+)$/` match on the created issue URL: the trailing digit
run when it is non-empty and preceded by a slash. -/
def extractIssueNumber (url : String) : Option String :=
  let rev := url.toList.reverse
  let ds := rev.takeWhile (fun c => c.isDigit)
  if ds.isEmpty then none
  else
    match rev.drop ds.length with
    | '/' :: _ => some (String.mk ds.reverse)
    | _ => none

/-- The context the issue create command synthesizes locally
(src/commands/issue-create.ts): empty author and assignees because the
issue does not exist yet. -/
def issueCreateContext (repo : String) : IssueContext :=
  { repo := repo, issueNumber := 0, issueAuthor := "", labels := [],
    assignees := [], parentIssueNumber := none }

/-- The command-local `checkPermission` of src/commands/issue-create.ts:
the owner gate on the resolved repo, then `evaluateRules` over the
`issueCreate` rule list. -/
def checkPermissionV1 (config : ConfigV1) (context : IssueContext) : PermissionCheckResultV1 :=
  match checkAllowedOwnersV1 config.allowedOwners context.repo with
  | some ownerBlock => ownerBlock
  | none => evaluateRules config.issueCreate context config.selfUserId

/-- The decision and reporting flow of the issue create command
(src/commands/issue-create.ts), with `handleError` routing folded in:
dry-run reports exit 0; a deny is a PERMISSION_DENIED error, exit 1; a
primary `gh` failure is a GH_CLI_ERROR, exit 1; after a successful
primary call, a non-empty enforcement argument list triggers the second
`gh` call, whose failure (or an unparsable issue URL) is an
ENFORCE_ERROR, exit 1; otherwise the success payload, exit 0.
Argument assembly for `gh` is external subprocess mechanics and is not
modelled. -/
def issueCreateAction (config : ConfigV1) (repo : String) (dryRun : Bool)
    (primary : ExecResult) (enforceExec : ExecResult) : InvocationResult :=
  let context := issueCreateContext repo
  let result := checkPermissionV1 config context
  if dryRun then
    InvocationResult.dryRunReport result.allowed result.ruleName result.reason result.enforce 0
  else if !result.allowed then
    InvocationResult.errorOut { error := result.reason, code := "PERMISSION_DENIED" } 1
  else
    match primary with
    | ExecResult.fail stderr =>
      InvocationResult.errorOut
        { error := if stderr == "" then "gh CLI error" else stderr, code := "GH_CLI_ERROR" } 1
    | ExecResult.ok stdout =>
      let url := trimStr stdout
      match result.enforce with
      | none => InvocationResult.successOut "Issue created successfully" url 0
      | some enf =>
        match buildEnforceArgs enf config.selfUserId with
        | Except.error resp => InvocationResult.errorOut resp 1
        | Except.ok args =>
          if args.length > 0 then
            match extractIssueNumber url with
            | none =>
              InvocationResult.errorOut
                { error := "Failed to extract issue number from created issue URL"
                  code := "ENFORCE_ERROR", detailsUrl := some url } 1
            | some _num =>
              match enforceExec with
              | ExecResult.fail _ =>
                InvocationResult.errorOut
                  { error := "Issue was created but enforce failed"
                    code := "ENFORCE_ERROR", detailsUrl := some url } 1
              | ExecResult.ok _ => InvocationResult.successOut "Issue created successfully" url 0
          else InvocationResult.successOut "Issue created successfully" url 0

-- ============================================================
-- AI comment marker (ai-marker module appended to src/types.ts)
-- ============================================================

/-- Embeds `AiMarkerConfig`: whether marking is enabled and the optional visible
marker text prepended to comment bodies (`visiblePrefix` in the source,
named `visiblePre` here for lexical reasons). -/
structure AiMarkerConfig where
  enabled : Bool
  visiblePre : Option String := none
deriving DecidableEq

/-- The invisible marker: ZWSP ZWNJ ZWSP ZWNJ ZWSP. -/
def INVISIBLE_MARKER : String := "\u200B\u200C\u200B\u200C\u200B"

/-- First-occurrence substring test over character lists
(JS `String.prototype.includes`). -/
def containsSub (s pat : List Char) : Bool :=
  match s with
  | [] => pat.isEmpty
  | _ :: rest => pat.isPrefixOf s || containsSub rest pat

/-- Remove the first occurrence of `pat` from `s`
(JS `String.prototype.replace` with a string pattern and empty
replacement); `s` is returned unchanged when `pat` does not occur. -/
def replaceFirstSub (s pat : List Char) : List Char :=
  match s with
  | [] => []
  | c :: rest => if pat.isPrefixOf s then s.drop pat.length else c :: replaceFirstSub rest pat

/-- Embeds `addAiMarker`: when enabled, prepend the visible marker text
(`config.visiblePrefix || ""`) and append the invisible marker. -/
def addAiMarker (body : String) (config : AiMarkerConfig) : String :=
  if !config.enabled then body
  else String.mk ((AiMarkerConfig.visiblePre config |>.getD "").toList
    ++ body.toList ++ INVISIBLE_MARKER.toList)

/-- Embeds `hasAiMarker`: the body contains the invisible marker. -/
def hasAiMarker (body : String) : Bool :=
  containsSub body.toList INVISIBLE_MARKER.toList

/-- Embeds `removeAiMarker`: remove the first occurrence of the invisible
marker, then strip the visible marker text when it is configured
non-empty and the result starts with it (JS `startsWith`/`slice` are the
character-prefix test and drop modelled here). -/
def removeAiMarker (body : String) (config : AiMarkerConfig) : String :=
  let result := replaceFirstSub body.toList INVISIBLE_MARKER.toList
  match AiMarkerConfig.visiblePre config with
  | none => String.mk result
  | some vp =>
    if vp.toList.isEmpty then String.mk result
    else if vp.toList.isPrefixOf result then String.mk (result.drop vp.toList.length)
    else String.mk result

-- ============================================================
-- Supporting lemmas
-- ============================================================

/-- The predicate deciding whether a rule matches an operation in a
context: the operation is in its operations set and its condition, when
present, evaluates to true. -/
def ruleMatches {α : Type} (check : α → Bool) (operation : String) (r : Rule α) : Bool :=
  r.operations.contains operation &&
    (match r.condition with
     | some c => check c
     | none => true)

lemma ruleLoop_eq_find {α : Type} (check : α → Bool) (rules : List (Rule α))
    (operation : String) :
    ruleLoop check rules operation =
      (rules.find? (ruleMatches check operation)).map (fun r => allowResult r.name) := by
  induction rules with
  | nil => rfl
  | cons rule rest ih =>
    by_cases hop : operation ∈ rule.operations
    · cases hcond : rule.condition with
      | none =>
        simp [ruleLoop, List.find?, ruleMatches, hop, hcond]
      | some c =>
        by_cases hc : check c
        · simp [ruleLoop, List.find?, ruleMatches, hop, hcond, hc]
        · simp [ruleLoop, List.find?, ruleMatches, hop, hcond, hc, ih]
    · simp [ruleLoop, List.find?, ruleMatches, hop, ih]

/-- Defined from the spec's words (Rule Matcher, §4.3): the name of the
first rule in declaration order whose operations set contains the
operation and whose condition, when present, evaluates to true, using
the resource's rule list and condition evaluator. -/
def specFirstMatch (config : Config) (resource : ResourceType) (operation : String)
    (context : OperationContext) : Option String :=
  match resource with
  | ResourceType.issue =>
    (config.issueRules.find?
      (ruleMatches (fun c => checkCommonCondition c context config.selfUserId) operation)).map
      (fun r => r.name)
  | ResourceType.pr =>
    (config.prRules.find?
      (ruleMatches (fun c => checkPrCondition c context config.selfUserId) operation)).map
      (fun r => r.name)
  | ResourceType.search =>
    (config.searchRules.find?
      (ruleMatches (fun c => checkSearchCondition c context) operation)).map
      (fun r => r.name)
  | ResourceType.project =>
    (config.projectRules.find?
      (ruleMatches (fun c => checkProjectCondition c context) operation)).map
      (fun r => r.name)

-- ============================================================
-- C1: first-match rule scan
-- ============================================================

/-- C1: for every config, resource, operation and context that pass the
owner gate, `checkPermission` scans the resource's rule list in
declaration order and returns allowed=true with the ruleName of the
first rule whose operations set contains the operation and whose
condition, when present, evaluates to true (so when two rules both
match, the earlier rule's name is returned, since `List.find?` yields
the first match in declaration order). -/
theorem C1_first_match (config : Config) (resource : ResourceType) (operation : String)
    (context : OperationContext) (n : String)
    (hgate : checkAllowedOwners config resource context = none)
    (hmatch : specFirstMatch config resource operation context = some n) :
    checkPermission config resource operation context =
      { allowed := true, ruleName := some n,
        reason := "Allowed by rule " ++ sq ++ n ++ sq } := by
  unfold checkPermission
  rw [hgate]
  cases resource <;>
    · simp only [specFirstMatch] at hmatch
      obtain ⟨r, hr, hn⟩ := Option.map_eq_some'.mp hmatch
      simp only [ruleLoop_eq_find, hr, Option.map_some']
      simp [allowResult, hn]

def c1Config : Config :=
  { issueRules := [{ name := "r1", operations := ["view"] },
                   { name := "r2", operations := ["view"] }] }

theorem C1_first_match_witness :
    checkPermission c1Config ResourceType.issue "view" {} =
      { allowed := true, ruleName := some "r1",
        reason := "Allowed by rule " ++ sq ++ "r1" ++ sq } :=
  C1_first_match c1Config ResourceType.issue "view" {} "r1" rfl (by decide)

-- ============================================================
-- C3: default-permission fallback
-- ============================================================

/-- C3: when the owner gate passes and no rule in the resource's list
matches, the decision is exactly the default fallback, which depends
only on defaultPermission and the operation's literal name (the
right-hand side mentions neither the resource nor the context): with
defaultPermission="deny" every operation is denied, and with
defaultPermission="read" the operation is allowed iff its literal name
is in the fixed list `readOperations`
(list, view, list:comments, diff, checks, field:list, item:list),
identically for all four resource types. -/
theorem C3_default_fallback (config : Config) (resource : ResourceType)
    (operation : String) (context : OperationContext)
    (hgate : checkAllowedOwners config resource context = none)
    (hnone : specFirstMatch config resource operation context = none) :
    checkPermission config resource operation context =
      (if config.defaultPermission == "read" && readOperations.contains operation then
        { allowed := true, ruleName := none, reason := "Allowed by default read permission" }
      else
        { allowed := false, ruleName := none,
          reason := "No matching rule and default permission is deny" })
    ∧ ((checkPermission config resource operation context).allowed = true ↔
        (config.defaultPermission = "read" ∧ readOperations.contains operation = true)) := by
  have hmain : checkPermission config resource operation context =
      (if config.defaultPermission == "read" && readOperations.contains operation then
        { allowed := true, ruleName := none, reason := "Allowed by default read permission" }
      else
        { allowed := false, ruleName := none,
          reason := "No matching rule and default permission is deny" }) := by
    unfold checkPermission
    rw [hgate]
    cases resource <;>
      · simp only [specFirstMatch, Option.map_eq_none'] at hnone
        simp [ruleLoop_eq_find, hnone, defaultFallback]
  refine ⟨hmain, ?_⟩
  rw [hmain]
  by_cases h1 : config.defaultPermission == "read" <;>
    by_cases h2 : readOperations.contains operation <;>
      simp_all [beq_iff_eq]

def c3Config : Config := { defaultPermission := "read" }

theorem C3_default_fallback_witness :
    checkPermission c3Config ResourceType.pr "diff" {} =
      { allowed := true, ruleName := none, reason := "Allowed by default read permission" }
    ∧ (checkPermission c3Config ResourceType.project "delete" {}).allowed = false := by
  constructor
  · have h := (C3_default_fallback c3Config ResourceType.pr "diff" {} rfl (by decide)).1
    rw [h]
    decide
  · have h := (C3_default_fallback c3Config ResourceType.project "delete" {} rfl (by decide)).2
    have h2 : ¬ ((checkPermission c3Config ResourceType.project "delete" {}).allowed = true) := by
      rw [h]
      rintro ⟨_, hc⟩
      exact absurd hc (by decide)
    exact Bool.eq_false_iff.mpr h2

-- ============================================================
-- C5: self predicates are unsatisfiable without selfUserId
-- ============================================================

/-- A condition uses a "self" predicate: createdBy="self" or assignee="self". -/
def usesSelf (c : CommonCondition) : Bool :=
  c.createdBy == some "self" || c.assignee == some "self"

lemma createdByOk_self_none (c : CommonCondition) (ctx : OperationContext)
    (h : c.createdBy = some "self") : createdByOk c ctx none = false := by
  simp [createdByOk, h, strFalsy]

lemma assigneeOk_self_none (c : CommonCondition) (ctx : OperationContext)
    (h : c.assignee = some "self") : assigneeOk c ctx none = false := by
  simp [assigneeOk, h]

/-- C5: the condition evaluator is a total Lean function by construction
(it never throws), and when selfUserId is not configured every "self"
predicate evaluates to false for every context — for the common (issue)
evaluator, for the PR evaluator, and consequently any rule whose
condition uses a "self" predicate can never match
(`ruleMatches` is false for it, whatever the operation and context). -/
theorem C5_self_unsatisfiable :
    (∀ (c : CommonCondition) (ctx : OperationContext),
      usesSelf c = true → checkCommonCondition c ctx none = false)
    ∧ (∀ (pc : PrCondition) (ctx : OperationContext),
      usesSelf pc.toCommonCondition = true → checkPrCondition pc ctx none = false)
    ∧ (∀ (r : Rule CommonCondition) (operation : String) (ctx : OperationContext)
        (c : CommonCondition), r.condition = some c → usesSelf c = true →
      ruleMatches (fun c => checkCommonCondition c ctx none) operation r = false)
    ∧ (∀ (r : Rule PrCondition) (operation : String) (ctx : OperationContext)
        (pc : PrCondition), r.condition = some pc → usesSelf pc.toCommonCondition = true →
      ruleMatches (fun c => checkPrCondition c ctx none) operation r = false) := by
  have hcommon : ∀ (c : CommonCondition) (ctx : OperationContext),
      usesSelf c = true → checkCommonCondition c ctx none = false := by
    intro c ctx h
    rcases Bool.or_eq_true _ _ |>.mp h with h1 | h1
    · have hc : c.createdBy = some "self" := by
        simpa [beq_iff_eq] using h1
      simp [checkCommonCondition, createdByOk_self_none c ctx hc]
    · have hc : c.assignee = some "self" := by
        simpa [beq_iff_eq] using h1
      simp [checkCommonCondition, assigneeOk_self_none c ctx hc]
  have hpr : ∀ (pc : PrCondition) (ctx : OperationContext),
      usesSelf pc.toCommonCondition = true → checkPrCondition pc ctx none = false := by
    intro pc ctx h
    simp [checkPrCondition, hcommon pc.toCommonCondition ctx h]
  refine ⟨hcommon, hpr, ?_, ?_⟩
  · intro r operation ctx c hr h
    simp [ruleMatches, hr, hcommon c ctx h]
  · intro r operation ctx pc hr h
    simp [ruleMatches, hr, hpr pc ctx h]

theorem C5_self_unsatisfiable_witness :
    checkCommonCondition { createdBy := some "self" } { issueAuthor := some "alice" } none = false
    ∧ checkPrCondition { assignee := some "self" } { assignees := some ["bot"] } none = false :=
  ⟨C5_self_unsatisfiable.1 { createdBy := some "self" } { issueAuthor := some "alice" } (by decide),
   C5_self_unsatisfiable.2.1 { assignee := some "self" } { assignees := some ["bot"] } (by decide)⟩

-- ============================================================
-- C4: global owner gate (corrected: an empty derived owner passes)
-- ============================================================

def c4Config : Config :=
  { issueRules := [{ name := "allow-all", operations := ["list"] }],
    allowedOwners := some ["my-org"] }

def c4Context : OperationContext := { repo := some "/x" }

/-- C4 counterexample: with allowedOwners=["my-org"], an issue context
whose repo is "/x" (present, so not "a context without a repo") derives
the owner as the first path segment of the repo, which is the empty
string and is not a member of ["my-org"]; the claim then requires a
terminal deny naming the owner, but the gate passes and the permissive
rule allows the operation. -/
theorem C4_counterexample :
    c4Config.allowedOwners = some ["my-org"]
    ∧ c4Context.repo = some "/x"
    ∧ (["my-org"].contains (firstSegment "/x")) = false
    ∧ checkAllowedOwners c4Config ResourceType.issue c4Context = none
    ∧ checkPermission c4Config ResourceType.issue "list" c4Context =
        { allowed := true, ruleName := some "allow-all",
          reason := "Allowed by rule " ++ sq ++ "allow-all" ++ sq } := by
  refine ⟨rfl, rfl, by decide, by decide, by decide⟩

lemma checkAllowedOwners_deny_only (config : Config) (resource : ResourceType)
    (ctx : OperationContext) (r : PermissionCheckResult)
    (h : checkAllowedOwners config resource ctx = some r) : r.allowed = false := by
  unfold checkAllowedOwners at h
  cases hao : config.allowedOwners with
  | none => rw [hao] at h; cases h
  | some ao =>
    rw [hao] at h
    by_cases hlen : ao.length == 0
    · simp [hlen] at h
    · simp only [hlen, Bool.false_eq_true, if_false] at h
      cases resource <;>
        · simp only at h
          repeat' split at h
          all_goals cases h
          all_goals simp [repoRequiredResult, blockedByOwnersResult]

/-- C4 amended: when allowedOwners is configured non-empty, the owner
gate runs before any rule evaluation and its deny is terminal (the deny
result is returned as the Decision, bypassing rules); for issue/PR
operations a context without a repo (or with an empty repo string) is
denied outright; a non-empty derived owner — the first path segment of
repo for issue, PR and search contexts, the projectOwner for project
contexts — that is not in allowedOwners is denied with a reason naming
the owner and the allow-list, even when some rule would otherwise
allow; but when the derived first path segment is the empty string
(repo starting with "/") the gate passes through instead of denying,
for issue, PR and search alike; for search a missing repo is passed
through, and for project a missing projectOwner is passed through. -/
theorem C4_owner_gate_amended :
    (∀ (config : Config) (resource : ResourceType) (op : String)
        (ctx : OperationContext) (r : PermissionCheckResult),
      checkAllowedOwners config resource ctx = some r →
      checkPermission config resource op ctx = r ∧ r.allowed = false)
    ∧ (∀ (config : Config) (ctx : OperationContext) (ao : List String)
        (resource : ResourceType),
      config.allowedOwners = some ao → ao ≠ [] →
      (resource = ResourceType.issue ∨ resource = ResourceType.pr) →
      strFalsy ctx.repo = true →
      checkAllowedOwners config resource ctx = some repoRequiredResult)
    ∧ (∀ (config : Config) (ctx : OperationContext) (ao : List String) (repo : String)
        (resource : ResourceType),
      config.allowedOwners = some ao → ao ≠ [] →
      (resource = ResourceType.issue ∨ resource = ResourceType.pr) →
      ctx.repo = some repo → repo ≠ "" → firstSegment repo ≠ "" →
      ao.contains (firstSegment repo) = false →
      checkAllowedOwners config resource ctx =
        some (blockedByOwnersResult (firstSegment repo) ao))
    ∧ (∀ (config : Config) (ctx : OperationContext) (ao : List String) (repo : String),
      config.allowedOwners = some ao → ao ≠ [] →
      ctx.repo = some repo → repo ≠ "" → firstSegment repo ≠ "" →
      ao.contains (firstSegment repo) = false →
      checkAllowedOwners config ResourceType.search ctx =
        some (blockedByOwnersResult (firstSegment repo) ao))
    ∧ (∀ (config : Config) (ctx : OperationContext) (ao : List String) (po : String),
      config.allowedOwners = some ao → ao ≠ [] →
      ctx.projectOwner = some po → po ≠ "" →
      ao.contains po = false →
      checkAllowedOwners config ResourceType.project ctx =
        some (blockedByOwnersResult po ao))
    ∧ (∀ (config : Config) (ctx : OperationContext) (ao : List String) (repo : String)
        (resource : ResourceType),
      config.allowedOwners = some ao →
      (resource = ResourceType.issue ∨ resource = ResourceType.pr) →
      ctx.repo = some repo → repo ≠ "" → firstSegment repo = "" →
      checkAllowedOwners config resource ctx = none)
    ∧ (∀ (config : Config) (ctx : OperationContext) (repo : String),
      ctx.repo = some repo → repo ≠ "" → firstSegment repo = "" →
      checkAllowedOwners config ResourceType.search ctx = none)
    ∧ (∀ (config : Config) (ctx : OperationContext),
      strFalsy ctx.repo = true → checkAllowedOwners config ResourceType.search ctx = none)
    ∧ (∀ (config : Config) (ctx : OperationContext),
      strFalsy ctx.projectOwner = true →
      checkAllowedOwners config ResourceType.project ctx = none) := by
  refine ⟨?_, ?_, ?_, ?_, ?_, ?_, ?_, ?_, ?_⟩
  · intro config resource op ctx r h
    refine ⟨?_, checkAllowedOwners_deny_only config resource ctx r h⟩
    unfold checkPermission
    rw [h]
  · intro config ctx ao resource hao hne hres hrepo
    have hlen : (ao.length == 0) = false := by
      simp [List.length_eq_zero, hne]
    rcases hres with h | h <;>
      · subst h
        simp [checkAllowedOwners, hao, hlen, hrepo]
  · intro config ctx ao repo resource hao hne hres hrepo hrne hseg hcont
    have hlen : (ao.length == 0) = false := by
      simp [List.length_eq_zero, hne]
    have hfal : strFalsy (some repo) = false := by
      simp [strFalsy, hrne]
    have hmem : firstSegment repo ∉ ao := by
      simpa using hcont
    rcases hres with h | h <;>
      · subst h
        simp [checkAllowedOwners, hao, hlen, hfal, hrepo, hseg, hmem]
  · intro config ctx ao repo hao hne hrepo hrne hseg hcont
    have hlen : (ao.length == 0) = false := by
      simp [List.length_eq_zero, hne]
    have hfal : strFalsy (some repo) = false := by
      simp [strFalsy, hrne]
    have hmem : firstSegment repo ∉ ao := by
      simpa using hcont
    simp [checkAllowedOwners, hao, hlen, hfal, hrepo, hseg, hmem]
  · intro config ctx ao po hao hne hpo hpone hcont
    have hlen : (ao.length == 0) = false := by
      simp [List.length_eq_zero, hne]
    have hfal : strFalsy (some po) = false := by
      simp [strFalsy, hpone]
    have hmem : po ∉ ao := by
      simpa using hcont
    simp [checkAllowedOwners, hao, hlen, hfal, hpo, hpone, hmem]
  · intro config ctx ao repo resource hao hres hrepo hrne hseg
    have hfal : strFalsy (some repo) = false := by
      simp [strFalsy, hrne]
    rcases hres with h | h <;>
      · subst h
        by_cases hlen : ao.length == 0 <;>
          simp [checkAllowedOwners, hao, hlen, hfal, hrepo, hseg]
  · intro config ctx repo hrepo hrne hseg
    have hfal : strFalsy (some repo) = false := by
      simp [strFalsy, hrne]
    cases hao : config.allowedOwners with
    | none => simp [checkAllowedOwners, hao]
    | some ao =>
      by_cases hlen : ao.length == 0 <;>
        simp [checkAllowedOwners, hao, hlen, hfal, hrepo, hseg]
  · intro config ctx hrepo
    cases hao : config.allowedOwners with
    | none => simp [checkAllowedOwners, hao]
    | some ao =>
      by_cases hlen : ao.length == 0 <;>
        simp [checkAllowedOwners, hao, hlen, hrepo]
  · intro config ctx hpo
    cases hao : config.allowedOwners with
    | none => simp [checkAllowedOwners, hao]
    | some ao =>
      by_cases hlen : ao.length == 0 <;>
        simp [checkAllowedOwners, hao, hlen, hpo]

def c4wConfig : Config :=
  { issueRules := [{ name := "allow-all", operations := ["list"] }],
    allowedOwners := some ["my-org"] }

theorem C4_owner_gate_witness :
    checkAllowedOwners c4wConfig ResourceType.issue { repo := some "evil/x" } =
      some (blockedByOwnersResult (firstSegment "evil/x") ["my-org"])
    ∧ checkPermission c4wConfig ResourceType.issue "list" { repo := some "evil/x" } =
        blockedByOwnersResult (firstSegment "evil/x") ["my-org"]
    ∧ checkAllowedOwners c4wConfig ResourceType.search { repo := some "evil/x" } =
        some (blockedByOwnersResult (firstSegment "evil/x") ["my-org"])
    ∧ checkAllowedOwners c4wConfig ResourceType.project { projectOwner := some "evil" } =
        some (blockedByOwnersResult "evil" ["my-org"]) := by
  have hgate := C4_owner_gate_amended.2.2.1 c4wConfig { repo := some "evil/x" }
    ["my-org"] "evil/x" ResourceType.issue rfl (by decide) (Or.inl rfl) rfl
    (by decide) (by decide) (by decide)
  refine ⟨hgate, (C4_owner_gate_amended.1 c4wConfig ResourceType.issue "list"
    { repo := some "evil/x" } _ hgate).1, ?_, ?_⟩
  · exact C4_owner_gate_amended.2.2.2.1 c4wConfig { repo := some "evil/x" }
      ["my-org"] "evil/x" rfl (by decide) rfl (by decide) (by decide) (by decide)
  · exact C4_owner_gate_amended.2.2.2.2.1 c4wConfig { projectOwner := some "evil" }
      ["my-org"] "evil" rfl (by decide) rfl (by decide) (by decide)

-- ============================================================
-- C6: branch pattern matching
-- ============================================================

lemma starSuffixes_any_isEmpty (l : List Char) :
    (starSuffixes l).any (fun s => s.isEmpty) = l.all (fun c => !isLineTerm c) := by
  induction l with
  | nil => rfl
  | cons c rest ih =>
    by_cases h : isLineTerm c
    · simp [starSuffixes, h]
    · simp [starSuffixes, h, ih]

lemma rmatch_star_chars (l : List Char) :
    rmatch [RTok.anyStar] l = l.all (fun c => !isLineTerm c) := by
  have h : ∀ s : List Char, rmatch [] s = s.isEmpty := fun s => rfl
  simp only [rmatch]
  simpa [h] using starSuffixes_any_isEmpty l

lemma rmatch_lits (pre : List Char) (ts : List RTok) (s : List Char) :
    rmatch (pre.map RTok.lit ++ ts) (pre ++ s) = rmatch ts s := by
  induction pre with
  | nil => rfl
  | cons c cs ih => simp [rmatch, ih]

lemma checkCommonCondition_default (ctx : OperationContext) (selfUserId : Option String) :
    checkCommonCondition {} ctx selfUserId = true := by
  simp [checkCommonCondition, createdByOk, assigneeOk, labelsOk, reposOk, ownersOk]

/-- C6 counterexample: the regex the source constructs gives `*` the
meaning `.*`, and the JS `.` metacharacter does not match line
terminators, so the branch "a\nb" — a run of characters — does not
match the pattern "*" even though the claim says `*` matches any run of
characters; the same branch is matched by the exact (no-`*`) pattern,
so the failure is specific to the wildcard. -/
theorem C6_counterexample :
    matchBranchPattern "a\nb" "*" = false
    ∧ matchBranchPattern "a\nb" "a\nb" = true := by
  refine ⟨by decide, by decide⟩

/-- C6 amended: branch pattern matching is full-string anchored and
case-sensitive; a pattern without `*` requires exact string equality; a
`*` matches exactly the runs of characters containing no JS line
terminator (\n, \r, U+2028, U+2029) — stated as an equation both for
the bare `*` pattern and for an arbitrary run after the literal text
"feature/"; the documented examples hold; and a non-empty baseBranch
(resp. headBranch) pattern list in a PR condition is satisfied iff at
least one of its patterns matches the context's branch. -/
theorem C6_branch_patterns :
    (∀ (branch pattern : String), pattern.toList.contains '*' = false →
      (matchBranchPattern branch pattern = true ↔ branch = pattern))
    ∧ (∀ (branch : String), matchBranchPattern branch "*" =
        branch.toList.all (fun c => !isLineTerm c))
    ∧ (∀ (mid : String), matchBranchPattern ("feature/" ++ mid) "feature/*" =
        mid.toList.all (fun c => !isLineTerm c))
    ∧ matchBranchPattern "feature/abc" "feature/*" = true
    ∧ matchBranchPattern "feature/" "feature/*" = true
    ∧ matchBranchPattern "hotfix/abc" "feature/*" = false
    ∧ matchBranchPattern "Feature/abc" "feature/*" = false
    ∧ matchBranchPattern "xfeature/abc" "feature/*" = false
    ∧ (∀ (pats : List String) (ctx : OperationContext) (selfUserId : Option String)
        (br : String), pats ≠ [] → ctx.baseBranch = some br → br ≠ "" →
      (checkPrCondition { baseBranch := some pats } ctx selfUserId = true ↔
        ∃ p ∈ pats, matchBranchPattern br p = true))
    ∧ (∀ (pats : List String) (ctx : OperationContext) (selfUserId : Option String)
        (br : String), pats ≠ [] → ctx.headBranch = some br → br ≠ "" →
      (checkPrCondition { headBranch := some pats } ctx selfUserId = true ↔
        ∃ p ∈ pats, matchBranchPattern br p = true)) := by
  refine ⟨?_, ?_, ?_, by decide, by decide, by decide, by decide, by decide, ?_, ?_⟩
  · intro branch pattern h
    have h2 : '*' ∉ pattern.data := by simpa [String.toList] using h
    simp [matchBranchPattern, String.toList, h2, beq_iff_eq]
  · intro branch
    have hstep : matchBranchPattern branch "*" = rmatch [RTok.anyStar] branch.toList := rfl
    rw [hstep]
    exact rmatch_star_chars branch.toList
  · intro mid
    have hdata : ("feature/" ++ mid).toList = "feature/".toList ++ mid.toList :=
      String.data_append _ _
    have hstep : matchBranchPattern ("feature/" ++ mid) "feature/*" =
        rmatch ("feature/".toList.map RTok.lit ++ [RTok.anyStar])
          (("feature/" ++ mid).toList) := rfl
    rw [hstep, hdata, rmatch_lits]
    exact rmatch_star_chars mid.toList
  · intro pats ctx selfUserId br hne hbr hbrne
    have hlen : 0 < pats.length := List.length_pos.mpr hne
    have hfal : strFalsy (some br) = false := by
      simp [strFalsy, hbrne]
    simp [checkPrCondition, checkCommonCondition_default, draftOk, baseBranchOk,
      headBranchOk, reviewDecisionOk, hlen, hfal, hbr, List.any_eq_true]
  · intro pats ctx selfUserId br hne hbr hbrne
    have hlen : 0 < pats.length := List.length_pos.mpr hne
    have hfal : strFalsy (some br) = false := by
      simp [strFalsy, hbrne]
    simp [checkPrCondition, checkCommonCondition_default, draftOk, baseBranchOk,
      headBranchOk, reviewDecisionOk, hlen, hfal, hbr, List.any_eq_true]

theorem C6_branch_patterns_witness :
    matchBranchPattern "main" "main" = true
    ∧ matchBranchPattern "release/v2" "*" = true
    ∧ matchBranchPattern ("feature/" ++ "xyz") "feature/*" = true
    ∧ checkPrCondition { baseBranch := some ["develop"] }
        { baseBranch := some "develop" } none = true :=
  ⟨(C6_branch_patterns.1 "main" "main" (by decide)).mpr rfl,
   (C6_branch_patterns.2.1 "release/v2").trans (by decide),
   (C6_branch_patterns.2.2.1 "xyz").trans (by decide),
   (C6_branch_patterns.2.2.2.2.2.2.2.2.1 ["develop"] { baseBranch := some "develop" }
      none "develop" (by decide) rfl (by decide)).mpr ⟨"develop", by decide⟩⟩

-- ============================================================
-- C8: context resolver table (corrected: false for project/search)
-- ============================================================

/-- The operation-name set the claim designates as targeting an
existing, identified resource. -/
def claimTargetedOps : List String :=
  ["update", "close", "reopen", "delete", "merge", "review", "update-branch",
   "comment", "comment:edit", "comment:delete"]

/-- C8 counterexample: "close" is a valid project operation and is in
the claim's targeted-operation name set, but `operationNeedsContext`
returns false for every project operation, so the claimed equivalence
fails at resource=project, operation="close". -/
theorem C8_counterexample :
    ¬ (∀ (resource : ResourceType) (operation : String),
        (opValues resource).contains operation = true →
        operationNeedsContext resource operation = claimTargetedOps.contains operation) := by
  intro h
  have hc := h ResourceType.project "close" (by decide)
  exact absurd hc (by decide)

/-- C8 amended: `operationNeedsContext` returns true exactly for the
issue operations update, close, reopen, delete, comment, comment:edit,
comment:delete and the PR operations update, close, reopen, merge,
review, update-branch, comment, comment:edit, comment:delete — i.e. for
issue and PR it coincides on the valid operation names with membership
in the targeted-operation name set — while for search and project it
returns false for every operation (including project close and delete,
which do target an existing identified resource but draw their
identifying data from the command line rather than a fetch); listing
and creation operations always get false. -/
theorem C8_needs_context_amended :
    (IssueOperationValues.all
      (fun op => operationNeedsContext ResourceType.issue op == claimTargetedOps.contains op) = true)
    ∧ (PrOperationValues.all
      (fun op => operationNeedsContext ResourceType.pr op == claimTargetedOps.contains op) = true)
    ∧ (∀ (op : String), operationNeedsContext ResourceType.search op = false)
    ∧ (∀ (op : String), operationNeedsContext ResourceType.project op = false) :=
  ⟨by decide, by decide, fun _ => rfl, fun _ => rfl⟩

-- ============================================================
-- C2: the matched rule's enforce directive is copied (earlier engine)
-- ============================================================

/-- Defined from the spec's words: the first rule in declaration order
whose condition, when present, is satisfied (in this engine generation
rule lists are already per-operation, so operation membership holds by
construction). -/
def specFirstMatchV1 (rules : List IssueRuleV1) (context : IssueContext)
    (selfUserId : Option String) : Option IssueRuleV1 :=
  rules.find? (fun r =>
    match r.condition with
    | some c => checkIssueCondition c context selfUserId
    | none => true)

lemma evaluateRules_eq_find (rules : List IssueRuleV1) (context : IssueContext)
    (selfUserId : Option String) :
    evaluateRules rules context selfUserId =
      (match specFirstMatchV1 rules context selfUserId with
       | some r => allowResultV1 r.name r.enforce
       | none =>
         { allowed := false, reason := "No matching rule and default permission is deny" }) := by
  induction rules with
  | nil => rfl
  | cons rule rest ih =>
    cases hc : rule.condition with
    | none =>
      simp [evaluateRules, specFirstMatchV1, List.find?, hc]
    | some c =>
      by_cases hch : checkIssueCondition c context selfUserId
      · simp [evaluateRules, specFirstMatchV1, List.find?, hc, hch]
      · simp only [evaluateRules, specFirstMatchV1, List.find?, hc, hch,
          Bool.false_eq_true, if_false]
        exact ih

/-- C2: whenever a rule matches (its condition, if any, is satisfied;
rule lists are per-operation in this engine generation, so the
operation is in the matched rule's scope by construction), the Decision
returned by the rule matcher `evaluateRules` carries that rule's
enforce directive copied from the rule, alongside allowed=true, the
rule's name, and a reason citing that name. (In the current-generation
engine neither rules nor `PermissionCheckResult` have an enforce field,
so there no rule carries a directive to copy.) -/
theorem C2_enforce_copied (rules : List IssueRuleV1) (context : IssueContext)
    (selfUserId : Option String) (r : IssueRuleV1)
    (h : specFirstMatchV1 rules context selfUserId = some r) :
    evaluateRules rules context selfUserId =
      { allowed := true, ruleName := some r.name,
        reason := "Allowed by rule " ++ sq ++ r.name ++ sq,
        enforce := r.enforce } := by
  rw [evaluateRules_eq_find, h]
  rfl

def c2Rules : List IssueRuleV1 :=
  [{ name := "mine", condition := some { createdBy := some "self" },
     enforce := some { addAssignees := some ["self"] } },
   { name := "fallback", enforce := some { addLabels := some ["ai"] } }]

theorem C2_enforce_copied_witness :
    evaluateRules c2Rules { repo := "o/r", issueAuthor := "alice" } none =
      { allowed := true, ruleName := some "fallback",
        reason := "Allowed by rule " ++ sq ++ "fallback" ++ sq,
        enforce := some { addLabels := some ["ai"] } } :=
  C2_enforce_copied c2Rules { repo := "o/r", issueAuthor := "alice" } none
    { name := "fallback", enforce := some { addLabels := some ["ai"] } } (by decide)

-- ============================================================
-- C7: parent-issue sub-conditions (corrected: an unconstraining
-- nested condition passes vacuously without a parent)
-- ============================================================

/-- A context records no parent issue. -/
def noParent (ctx : IssueContext) : Prop :=
  ctx.parentIssueNumber = none ∧ ctx.parentIssueAssignees = []
    ∧ ctx.parentIssueLabels = [] ∧ ctx.parentIssueTitle = none

instance (ctx : IssueContext) : Decidable (noParent ctx) := by
  unfold noParent
  infer_instance

/-- The nested condition actually constrains something that requires a
parent: a number, a self-assignee, a non-empty labels.include list, or
a title-prefix text. -/
def parentConstrains (p : ParentIssueCondition) : Bool :=
  p.number.isSome || p.assignee == some "self"
  || (match p.labels with
      | some l =>
        (match l.incl with
         | some xs => !xs.isEmpty
         | none => false)
      | none => false)
  || (ParentIssueCondition.titlePre p).isSome

def c7Condition : IssueConditionV1 := { parentIssue := some {} }

def c7Context : IssueContext :=
  { repo := "o/r", issueNumber := 7, issueAuthor := "alice", issueTitle := "t",
    labels := [], assignees := [], parentIssueNumber := none,
    parentIssueAssignees := [], parentIssueLabels := [], parentIssueTitle := none }

/-- C7 counterexample: an issue condition containing a nested
parentIssue sub-condition (here the empty one) evaluated against a
context with no parent issue returns true, not false — the nested
condition does not fail wholesale when no parent exists. -/
theorem C7_counterexample :
    c7Condition.parentIssue = some {}
    ∧ noParent c7Context
    ∧ checkIssueCondition c7Condition c7Context (some "bot") = true := by
  refine ⟨rfl, by decide, by decide⟩

/-- C7 amended: a nested parentIssue sub-condition evaluated against a
context with no parent issue fails the whole condition whenever it
constrains something that requires a parent (a number, assignee="self",
a non-empty labels.include, or a titlePrefix); a nested condition with
none of these (empty, or labels.exclude only) passes vacuously. When a
parent exists, the nested sub-condition applies the same AND semantics
to the separately supplied parent-issue fields, as stated by the
equation with `parentIssueOk`, the conjunction of the four sub-checks. -/
theorem C7_parent_condition_amended :
    (∀ (cond : IssueConditionV1) (ctx : IssueContext) (selfUserId : Option String)
        (p : ParentIssueCondition),
      cond.parentIssue = some p → noParent ctx → parentConstrains p = true →
      checkIssueCondition cond ctx selfUserId = false)
    ∧ (∀ (p : ParentIssueCondition) (ctx : IssueContext) (selfUserId : Option String),
      checkIssueCondition { parentIssue := some p } ctx selfUserId =
        parentIssueOk p ctx selfUserId) := by
  constructor
  · intro cond ctx selfUserId p hp hnp hcon
    obtain ⟨hn, ha, hl, ht⟩ := hnp
    have hfail : parentIssueOk p ctx selfUserId = false := by
      rcases Bool.or_eq_true _ _ |>.mp hcon with hcon | htp
      · rcases Bool.or_eq_true _ _ |>.mp hcon with hcon | hlab
        · rcases Bool.or_eq_true _ _ |>.mp hcon with hnum | hassign
          · obtain ⟨n, hn2⟩ := Option.isSome_iff_exists.mp hnum
            simp [parentIssueOk, hn2, hn]
          · have h2 : p.assignee = some "self" := by simpa [beq_iff_eq] using hassign
            rcases selfUserId with _ | su
            · simp [parentIssueOk, h2]
            · by_cases hsu : su = "" <;> simp [parentIssueOk, h2, hsu, ha]
        · rcases hlb : p.labels with _ | l
          · rw [hlb] at hlab
            exact absurd hlab (by decide)
          · rw [hlb] at hlab
            have hlab2 : (match l.incl with
                | some xs => !xs.isEmpty
                | none => false) = true := hlab
            rcases hli : l.incl with _ | xs
            · rw [hli] at hlab2
              exact absurd hlab2 (by decide)
            · rw [hli] at hlab2
              have hxs0 : (!xs.isEmpty) = true := hlab2
              have hxs : 0 < xs.length := by
                rcases xs with _ | ⟨x, rest⟩
                · exact absurd hxs0 (by decide)
                · simp
              simp [parentIssueOk, labelClauseOk, hlb, hli, hl, hxs]
      · obtain ⟨t, ht2⟩ := Option.isSome_iff_exists.mp htp
        simp [parentIssueOk, ht2, ht]
    simp [checkIssueCondition, hp, hfail]
  · intro p ctx selfUserId
    simp [checkIssueCondition, createdByOkV1, assigneeOkV1, labelClauseOk,
      reposOkV1, ownersOkV1, titleOkV1]

theorem C7_parent_condition_witness :
    checkIssueCondition { parentIssue := some { number := some 5 } } c7Context none = false
    ∧ checkIssueCondition { parentIssue := some { number := some 5 } }
        { repo := "o/r", parentIssueNumber := some 5 } none = true := by
  constructor
  · exact C7_parent_condition_amended.1 { parentIssue := some { number := some 5 } }
      c7Context none { number := some 5 } rfl (by decide) (by decide)
  · have h := C7_parent_condition_amended.2 { number := some 5 }
      { repo := "o/r", parentIssueNumber := some 5 } none
    rw [h]
    decide

-- ============================================================
-- C9: ENFORCE_ERROR partial failure
-- ============================================================

/-- C9: when the permission check allows with an enforce directive that
builds a non-empty argument list, the primary action succeeds (its
trimmed output yields an issue number), and the subsequent enforcement
call fails, the invocation reports the distinct ENFORCE_ERROR
partial-failure payload whose message states that the issue was created
but enforcement did not complete (the url detail carries the created
issue), exits nonzero — and this outcome differs from every
clean-success payload and carries a code different from
PERMISSION_DENIED. -/
theorem C9_enforce_partial_failure (config : ConfigV1) (repo stdout stderrE : String)
    (enf : Enforce) (args : List String) (num : String)
    (hallow : (checkPermissionV1 config (issueCreateContext repo)).allowed = true)
    (henf : (checkPermissionV1 config (issueCreateContext repo)).enforce = some enf)
    (hargs : buildEnforceArgs enf config.selfUserId = Except.ok args)
    (hne : args ≠ [])
    (hnum : extractIssueNumber (trimStr stdout) = some num) :
    issueCreateAction config repo false (ExecResult.ok stdout) (ExecResult.fail stderrE) =
      InvocationResult.errorOut
        { error := "Issue was created but enforce failed", code := "ENFORCE_ERROR",
          detailsUrl := some (trimStr stdout) } 1
    ∧ (∀ (m u : String) (e : Nat),
        InvocationResult.errorOut
          { error := "Issue was created but enforce failed", code := "ENFORCE_ERROR",
            detailsUrl := some (trimStr stdout) } 1 ≠ InvocationResult.successOut m u e)
    ∧ ("ENFORCE_ERROR" : String) ≠ "PERMISSION_DENIED"
    ∧ (1 : Nat) ≠ 0 := by
  refine ⟨?_, ?_, by decide, by decide⟩
  · have hlen : 0 < args.length := List.length_pos.mpr hne
    simp only [issueCreateAction, hallow, henf, hargs, hnum, Bool.not_true,
      Bool.false_eq_true, if_false, hlen, if_pos]
  · intro m u e h
    exact InvocationResult.noConfusion h

def c9Config : ConfigV1 :=
  { issueCreate := [{ name := "create-ok", enforce := some { addLabels := some ["ai"] } }] }

theorem C9_enforce_partial_failure_witness :
    issueCreateAction c9Config "o/r" false
      (ExecResult.ok "https://github.com/o/r/issues/12\n") (ExecResult.fail "boom") =
      InvocationResult.errorOut
        { error := "Issue was created but enforce failed", code := "ENFORCE_ERROR",
          detailsUrl := some (trimStr "https://github.com/o/r/issues/12\n") } 1 :=
  (C9_enforce_partial_failure c9Config "o/r" "https://github.com/o/r/issues/12\n" "boom"
    { addLabels := some ["ai"] } ["--add-label", "ai"] "12"
    (by decide) (by decide) rfl (by decide) (by decide)).1

-- ============================================================
-- C10: AI marker round-trip (corrected: bodies ending in a proper
-- marker fragment shift the removed occurrence)
-- ============================================================

lemma isPrefixOf_self_chars (l : List Char) : l.isPrefixOf l = true := by
  simp [List.isPrefixOf_iff_prefix]

lemma isPrefixOf_append_chars (l t : List Char) : l.isPrefixOf (l ++ t) = true := by
  simp [List.isPrefixOf_iff_prefix]

lemma containsSub_append_self (s pat : List Char) (h : pat ≠ []) :
    containsSub (s ++ pat) pat = true := by
  induction s with
  | nil =>
    rcases pat with _ | ⟨c, cs⟩
    · exact absurd rfl h
    · simp [containsSub, isPrefixOf_self_chars]
  | cons c cs ih =>
    simp [containsSub, ih]

lemma replaceFirstSub_at_end (s pat : List Char)
    (h : ∀ i, i < s.length → pat.isPrefixOf ((s ++ pat).drop i) = false) :
    replaceFirstSub (s ++ pat) pat = s := by
  induction s with
  | nil =>
    rcases pat with _ | ⟨c, cs⟩
    · rfl
    · simp [replaceFirstSub, isPrefixOf_self_chars, List.drop_length]
  | cons c cs ih =>
    have h0 : pat.isPrefixOf (c :: (cs ++ pat)) = false := by
      have := h 0 (by simp)
      simpa using this
    have hrest : ∀ i, i < cs.length → pat.isPrefixOf ((cs ++ pat).drop i) = false := by
      intro i hi
      have := h (i + 1) (by simp; omega)
      simpa using this
    simp [replaceFirstSub, h0, ih hrest]

def c10Config : AiMarkerConfig := { enabled := true, visiblePre := none }

def c10Body : String := "\u200B\u200C\u200B\u200C"

/-- C10 counterexample: with marking enabled and no visible marker text,
the body consisting of the four-character proper fragment
ZWSP ZWNJ ZWSP ZWNJ of the invisible marker does not contain the marker
itself, yet after `addAiMarker` the first marker occurrence starts
inside the original body, so `removeAiMarker` removes a straddling
occurrence and does not return the original body. (`hasAiMarker` of the
wrapped body still holds.) -/
theorem C10_counterexample :
    c10Config.enabled = true
    ∧ hasAiMarker c10Body = false
    ∧ hasAiMarker (addAiMarker c10Body c10Config) = true
    ∧ removeAiMarker (addAiMarker c10Body c10Config) c10Config ≠ c10Body := by
  refine ⟨rfl, by decide, by decide, by decide⟩

/-- C10 amended: for every AI-marker config with enabled=true and every
comment body such that the invisible marker's first occurrence in
visiblePrefix + body + marker is the appended one (no occurrence starts
before the appended marker — in particular any body and visible marker
text free of the zero-width characters ZWSP and ZWNJ),
`hasAiMarker (addAiMarker body config) = true` and
`removeAiMarker (addAiMarker body config) config = body`. -/
theorem C10_marker_roundtrip_amended (config : AiMarkerConfig) (body : String)
    (hen : config.enabled = true)
    (hocc : ∀ i, i < (AiMarkerConfig.visiblePre config |>.getD "").toList.length
        + body.toList.length →
      INVISIBLE_MARKER.toList.isPrefixOf
        ((((AiMarkerConfig.visiblePre config |>.getD "").toList ++ body.toList
          ++ INVISIBLE_MARKER.toList)).drop i) = false) :
    hasAiMarker (addAiMarker body config) = true
    ∧ removeAiMarker (addAiMarker body config) config = body := by
  set P := (AiMarkerConfig.visiblePre config |>.getD "").toList with hP
  set B := body.toList with hB
  set M := INVISIBLE_MARKER.toList with hM
  have hMne : M ≠ [] := by rw [hM]; decide
  have hadd : addAiMarker body config = String.mk (P ++ B ++ M) := by
    unfold addAiMarker
    rw [hen]
    rfl
  have hocc2 : ∀ i, i < (P ++ B).length → M.isPrefixOf (((P ++ B) ++ M).drop i) = false := by
    intro i hi
    rw [List.length_append] at hi
    exact hocc i hi
  have hrep : replaceFirstSub (P ++ B ++ M) M = P ++ B :=
    replaceFirstSub_at_end (P ++ B) M hocc2
  have hmkB : String.mk B = body := rfl
  constructor
  · rw [hadd]
    show containsSub (P ++ B ++ M) M = true
    exact containsSub_append_self (P ++ B) M hMne
  · rw [hadd]
    cases hvp : AiMarkerConfig.visiblePre config with
    | none =>
      have hPnil : P = [] := by rw [hP, hvp]; rfl
      have h1 : removeAiMarker (String.mk (P ++ B ++ M)) config =
          String.mk (replaceFirstSub (P ++ B ++ M) M) := by
        unfold removeAiMarker
        rw [hvp]
        rfl
      rw [h1, hrep, hPnil]
      exact hmkB
    | some vp =>
      have hPvp : P = vp.toList := by rw [hP, hvp]; rfl
      have h1 : removeAiMarker (String.mk (P ++ B ++ M)) config =
          (if vp.toList.isEmpty then String.mk (replaceFirstSub (P ++ B ++ M) M)
           else if vp.toList.isPrefixOf (replaceFirstSub (P ++ B ++ M) M) then
             String.mk ((replaceFirstSub (P ++ B ++ M) M).drop vp.toList.length)
           else String.mk (replaceFirstSub (P ++ B ++ M) M)) := by
        unfold removeAiMarker
        rw [hvp]
        rfl
      rw [h1, hrep]
      by_cases hvpe : vp.toList.isEmpty = true
      · have hPnil : P = [] := by
          rw [hPvp]
          exact List.isEmpty_iff.mp hvpe
        rw [hvpe, if_pos rfl, hPnil]
        exact hmkB
      · have hvpe2 : vp.toList.isEmpty = false := Bool.eq_false_iff.mpr hvpe
        have hpre : vp.toList.isPrefixOf (P ++ B) = true := by
          rw [hPvp]
          exact isPrefixOf_append_chars vp.toList B
        rw [hvpe2, hpre]
        show String.mk ((P ++ B).drop vp.toList.length) = body
        rw [hPvp, List.drop_left]
        exact hmkB

theorem C10_marker_roundtrip_witness :
    hasAiMarker (addAiMarker "hello" { enabled := true, visiblePre := some "AI: " }) = true
    ∧ removeAiMarker (addAiMarker "hello" { enabled := true, visiblePre := some "AI: " })
        { enabled := true, visiblePre := some "AI: " } = "hello" :=
  C10_marker_roundtrip_amended { enabled := true, visiblePre := some "AI: " } "hello"
    rfl (by decide)

end SafeGh
